import Mathlib

/-!
Shallow embedding of the Altera license server core (src/routes/license.py,
src/models.py). Dates are modelled as day ordinals (`Nat`), `str(date)` as
`toString`. The database session is modelled as an explicit `ServerState`
record; SQL `select ... .first()` becomes `List.find?`, `.all()` becomes
`List.filter`. JWT encode/decode is modelled by an abstract `Token` type:
`Token.signed p` is a token whose signature verifies and whose payload is
`p`; `Token.invalid` is any token on which `jwt.decode` raises `JWTError`.
Payload claims that `validate` reads with `payload.get` are `Option`-valued,
so a structurally deficient (but signed) payload is representable.
HTTPException is modelled by `HTTPError`; route handlers that can raise
return `Except HTTPError`.
-/

namespace Altera

/-- A row of the `license` table (models.py, class License). -/
structure License where
  key : String
  email : String
  plan : String
  expiry : Nat
  max_seats : Nat
deriving DecidableEq, Repr

/-- A row of the `activation` table (models.py, class Activation). -/
structure Activation where
  id : Nat
  license_key : String
  machine_id : String
  username : Option String
  activated_at : Nat
  revoked : Bool
deriving DecidableEq, Repr

/-- A row of the `bannedmachine` table (models.py, class BannedMachine). -/
structure BannedMachine where
  machine_id : String
  reason : Option String
deriving DecidableEq, Repr

/-- The database state seen by one request, plus the current date
(`date.today()`) and the next fresh primary key for `activation` rows. -/
structure ServerState where
  licenses : List License
  activations : List Activation
  banned : List BannedMachine
  nextId : Nat
  today : Nat
deriving DecidableEq, Repr

/-- The claim set of a decoded JWT. `make_token` fills every field; a
foreign signed token may lack `key` or `machine` (then `payload.get`
returns `None`, modelled as `none`). -/
structure TokenPayload where
  sub : Option String
  key : Option String
  machine : Option String
  plan : Option String
  expiry : Option String
deriving DecidableEq, Repr

/-- Outcome of `jwt.decode`: a validly signed payload, or `JWTError`. -/
inductive Token where
  | invalid : Token
  | signed : TokenPayload → Token
deriving DecidableEq, Repr

/-- Models `HTTPException(status_code, detail)`. -/
structure HTTPError where
  code : Nat
  detail : String
deriving DecidableEq, Repr

instance {ε α : Type} [DecidableEq ε] [DecidableEq α] :
    DecidableEq (Except ε α) := fun a b =>
  match a, b with
  | .error e, .error f =>
    decidable_of_iff (e = f) ⟨fun h => by rw [h], fun h => by injection h⟩
  | .error _, .ok _ => .isFalse fun hc => by injection hc
  | .ok _, .error _ => .isFalse fun hc => by injection hc
  | .ok x, .ok y =>
    decidable_of_iff (x = y) ⟨fun h => by rw [h], fun h => by injection h⟩

/-- Request body of /license/activate and /license/deactivate
(class ActivateRequest). -/
structure ActivateRequest where
  license_key : String
  machine_id : String
  username : Option String
deriving DecidableEq, Repr

/-- Request body of /license/validate (class ValidateRequest). -/
structure ValidateRequest where
  token : Token
  machine_id : String
deriving DecidableEq, Repr

/-- Response body of /license/validate (class ValidateResponse), with the
same pydantic defaults. -/
structure ValidateResponse where
  valid : Bool
  plan : String
  email : String
  expired : Bool := false
  expiry_date : Option String := none
  message : Option String := none
  license_key : Option String := none
deriving DecidableEq, Repr

/-- Success body of /license/activate. -/
structure ActivateResponse where
  token : Token
  email : String
  plan : String
  expiry_date : String
deriving DecidableEq, Repr

/-- Success body of /license/deactivate. -/
structure DeactivateResponse where
  ok : Bool
  message : String
deriving DecidableEq, Repr

/-- Models `str(d)` on a date, abstracted to the day ordinal's decimal string. -/
def dateStr (d : Nat) : String := toString d

/-- Python truthiness of `req.username` (`if req.username:`): `None` and
the empty string are falsy. -/
def pyTruthy : Option String → Bool
  | none => false
  | some u => !(u == "")

/-- Helper `make_token(license, machine_id)`: build the signed claim set. -/
def make_token (license : License) (machine_id : String) : Token :=
  Token.signed
    { sub := some license.email
      key := some license.key
      machine := some machine_id
      plan := some license.plan
      expiry := some (dateStr license.expiry) }

/-- Models `select(BannedMachine).where(machine_id == m).first() is not None`. -/
def isBanned (s : ServerState) (machine_id : String) : Bool :=
  (s.banned.find? (fun b => b.machine_id == machine_id)).isSome

/-- Models `select(License).where(License.key == k).first()`. -/
def findLicense (s : ServerState) (k : String) : Option License :=
  s.licenses.find? (fun l => l.key == k)

/-- The license lookup in `validate`, where the key comes from
`payload.get("key")` and may be `None` (SQL `key = NULL` matches no row). -/
def findLicenseOpt (s : ServerState) (k : Option String) : Option License :=
  s.licenses.find? (fun l => some l.key == k)

/-- Models `select(Activation).where(license_key == k, machine_id == m,
revoked == False).first()`: the live row for a pair, if any. -/
def liveForPair (s : ServerState) (k m : String) : Option Activation :=
  s.activations.find? (fun a => a.license_key == k && a.machine_id == m && !a.revoked)

/-- The live-activation lookup in `validate`, keyed by the payload's
optional `key` claim. -/
def liveForPairOpt (s : ServerState) (k : Option String) (m : String) : Option Activation :=
  s.activations.find? (fun a => some a.license_key == k && a.machine_id == m && !a.revoked)

/-- Models `select(Activation).where(license_key == k, revoked == False).all()`
on a plain row list. -/
def liveRows (acts : List Activation) (k : String) : List Activation :=
  acts.filter (fun a => a.license_key == k && !a.revoked)

/-- Count of non-revoked activation rows for a license key. -/
def liveCount (s : ServerState) (k : String) : Nat :=
  (liveRows s.activations k).length

/-- ORM row update `existing.username = u` followed by commit: rewrite the
row with the given primary key. -/
def setUsername (acts : List Activation) (i : Nat) (u : Option String) : List Activation :=
  acts.map (fun a => if a.id == i then { a with username := u } else a)

/-- ORM row update `activation.revoked = True` followed by commit. -/
def setRevoked (acts : List Activation) (i : Nat) : List Activation :=
  acts.map (fun a => if a.id == i then { a with revoked := true } else a)

/-- Models the f-string "Seat limit reached (N seats)". -/
def seatLimitMsg (max_seats : Nat) : String :=
  "Seat limit reached (" ++ toString max_seats ++ " seats)"

/-- POST /license/activate (routes/license.py, `activate`). -/
def activate (s : ServerState) (req : ActivateRequest) :
    Except HTTPError (ActivateResponse × ServerState) :=
  if isBanned s req.machine_id then
    .error ⟨403, "This machine has been banned"⟩
  else
    match findLicense s req.license_key with
    | none => .error ⟨404, "License not found"⟩
    | some lic =>
      if lic.expiry < s.today then
        .error ⟨403, "License has expired"⟩
      else
        match liveForPair s req.license_key req.machine_id with
        | some existing =>
          .ok (⟨make_token lic req.machine_id, lic.email, lic.plan, dateStr lic.expiry⟩,
            if pyTruthy req.username then
              { s with activations := setUsername s.activations existing.id req.username }
            else s)
        | none =>
          if lic.max_seats ≤ (liveRows s.activations req.license_key).length then
            .error ⟨403, seatLimitMsg lic.max_seats⟩
          else
            .ok (⟨make_token lic req.machine_id, lic.email, lic.plan, dateStr lic.expiry⟩,
              { s with
                activations := s.activations ++
                  [{ id := s.nextId
                     license_key := req.license_key
                     machine_id := req.machine_id
                     username := req.username
                     activated_at := s.today
                     revoked := false }]
                nextId := s.nextId + 1 })

/-- POST /license/validate (routes/license.py, `validate`). Total: every
rejection is a normal `ValidateResponse`. -/
def validate (s : ServerState) (req : ValidateRequest) : ValidateResponse :=
  if isBanned s req.machine_id then
    { valid := false, plan := "", email := "", message := some "This machine has been banned" }
  else
    match req.token with
    | .invalid =>
      { valid := false, plan := "", email := "", message := some "Invalid token" }
    | .signed payload =>
      if payload.machine != some req.machine_id then
        { valid := false, plan := "", email := "", message := some "Machine ID mismatch" }
      else
        match findLicenseOpt s payload.key with
        | none =>
          { valid := false, plan := "", email := "", message := some "License not found" }
        | some lic =>
          match liveForPairOpt s payload.key req.machine_id with
          | none =>
            { valid := false, plan := "", email := "",
              message := some "Activation revoked or not found" }
          | some _ =>
            let expired := decide (lic.expiry < s.today)
            { valid := !expired, plan := lic.plan, email := lic.email,
              expired := expired, expiry_date := some (dateStr lic.expiry),
              license_key := payload.key }

/-- POST /license/deactivate (routes/license.py, `deactivate`). Note: no
ban check in the source. -/
def deactivate (s : ServerState) (req : ActivateRequest) :
    Except HTTPError (DeactivateResponse × ServerState) :=
  match liveForPair s req.license_key req.machine_id with
  | none => .error ⟨404, "Active activation not found"⟩
  | some activation =>
    .ok (⟨true, "Deactivated successfully"⟩,
      { s with activations := setRevoked s.activations activation.id })

/-- One core operation, as named by the spec's Entitlement Service. -/
inductive Op where
  | activateOp : ActivateRequest → Op
  | validateOp : ValidateRequest → Op
  | deactivateOp : ActivateRequest → Op
deriving DecidableEq, Repr

/-- State reached after one core operation: a failed activate/deactivate
raises before any commit, and validate never writes, so those leave the
state unchanged. -/
def stepState (s : ServerState) : Op → ServerState
  | .activateOp req =>
    match activate s req with
    | .ok (_, s1) => s1
    | .error _ => s
  | .validateOp _ => s
  | .deactivateOp req =>
    match deactivate s req with
    | .ok (_, s1) => s1
    | .error _ => s

/-- State reached after a sequence of core operations. -/
def runOps (s : ServerState) (ops : List Op) : ServerState :=
  ops.foldl stepState s

/-- Primary keys of activation rows are pairwise distinct. -/
def idsUnique (s : ServerState) : Prop :=
  ∀ a ∈ s.activations, ∀ b ∈ s.activations, a.id = b.id → a = b

/-- Every activation row's primary key is below the next fresh key. -/
def idsBounded (s : ServerState) : Prop :=
  ∀ a ∈ s.activations, a.id < s.nextId

/-- Well-formed primary keys. -/
def WFids (s : ServerState) : Prop := idsUnique s ∧ idsBounded s

/-- At most one live activation row per (license_key, machine_id) pair. -/
def atMostOneLive (s : ServerState) : Prop :=
  ∀ a ∈ s.activations, ∀ b ∈ s.activations,
    a.revoked = false → b.revoked = false →
    a.license_key = b.license_key → a.machine_id = b.machine_id → a.id = b.id

/-! ### List helper lemmas -/

theorem length_filter_map_eq {α : Type} (g : α → α) (p : α → Bool) (l : List α)
    (h : ∀ a, p (g a) = p a) :
    ((l.map g).filter p).length = (l.filter p).length := by
  induction l with
  | nil => rfl
  | cons a t ih =>
    simp only [List.map_cons, List.filter_cons, h a]
    cases p a <;> simp [ih]

theorem length_filter_map_le {α : Type} (g : α → α) (p : α → Bool) (l : List α)
    (h : ∀ a, p (g a) = true → p a = true) :
    ((l.map g).filter p).length ≤ (l.filter p).length := by
  induction l with
  | nil => exact le_refl _
  | cons a t ih =>
    simp only [List.map_cons, List.filter_cons]
    cases hpa : p (g a)
    · cases hqa : p a
      · simpa using ih
      · simpa using Nat.le_succ_of_le ih
    · rw [h a hpa]
      simpa using Nat.succ_le_succ ih

theorem liveRows_setUsername (acts : List Activation) (i : Nat) (u : Option String)
    (k : String) :
    (liveRows (setUsername acts i u) k).length = (liveRows acts k).length := by
  unfold liveRows setUsername
  apply length_filter_map_eq
  intro a
  by_cases h : (a.id == i) = true <;> simp [h]

theorem liveRows_setRevoked_le (acts : List Activation) (i : Nat) (k : String) :
    (liveRows (setRevoked acts i) k).length ≤ (liveRows acts k).length := by
  unfold liveRows setRevoked
  apply length_filter_map_le
  intro a h
  by_cases hid : (a.id == i) = true
  · simp [hid] at h
  · simpa [hid] using h

theorem liveRows_append (acts : List Activation) (a : Activation) (k : String) :
    liveRows (acts ++ [a]) k =
      liveRows acts k ++ (if a.license_key == k && !a.revoked then [a] else []) := by
  unfold liveRows
  rw [List.filter_append]
  simp [List.filter_cons]

/-! ### Characterization of each operation's outcomes -/

theorem activate_ok_cases (s : ServerState) (req : ActivateRequest)
    (resp : ActivateResponse) (s1 : ServerState)
    (h : activate s req = .ok (resp, s1)) :
    ∃ lic, isBanned s req.machine_id = false ∧
      findLicense s req.license_key = some lic ∧
      ¬ lic.expiry < s.today ∧
      resp = ⟨make_token lic req.machine_id, lic.email, lic.plan, dateStr lic.expiry⟩ ∧
      ((∃ existing, liveForPair s req.license_key req.machine_id = some existing ∧
          s1 = (if pyTruthy req.username then
              { s with activations := setUsername s.activations existing.id req.username }
            else s)) ∨
       (liveForPair s req.license_key req.machine_id = none ∧
        (liveRows s.activations req.license_key).length < lic.max_seats ∧
        s1 = { s with
          activations := s.activations ++
            [⟨s.nextId, req.license_key, req.machine_id, req.username, s.today, false⟩]
          nextId := s.nextId + 1 })) := by
  unfold activate at h
  split at h
  · simp at h
  · rename_i hban
    split at h
    · simp at h
    · rename_i lic hlic
      split at h
      · simp at h
      · rename_i hexp
        split at h
        · rename_i existing hex
          simp only [Except.ok.injEq, Prod.mk.injEq] at h
          exact ⟨lic, by simpa using hban, hlic, hexp, h.1.symm,
            Or.inl ⟨existing, hex, h.2.symm⟩⟩
        · rename_i hex
          split at h
          · simp at h
          · rename_i hseat
            simp only [Except.ok.injEq, Prod.mk.injEq] at h
            exact ⟨lic, by simpa using hban, hlic, hexp, h.1.symm,
              Or.inr ⟨hex, by omega, h.2.symm⟩⟩

theorem deactivate_ok_cases (s : ServerState) (req : ActivateRequest)
    (resp : DeactivateResponse) (s1 : ServerState)
    (h : deactivate s req = .ok (resp, s1)) :
    ∃ act, liveForPair s req.license_key req.machine_id = some act ∧
      resp = ⟨true, "Deactivated successfully"⟩ ∧
      s1 = { s with activations := setRevoked s.activations act.id } := by
  unfold deactivate at h
  split at h
  · simp at h
  · rename_i act hact
    simp only [Except.ok.injEq, Prod.mk.injEq] at h
    exact ⟨act, hact, h.1.symm, h.2.symm⟩

theorem deactivate_of_no_live (s : ServerState) (req : ActivateRequest)
    (h : liveForPair s req.license_key req.machine_id = none) :
    deactivate s req = .error ⟨404, "Active activation not found"⟩ := by
  unfold deactivate
  rw [h]

theorem activate_ok_frame (s : ServerState) (req : ActivateRequest)
    (resp : ActivateResponse) (s1 : ServerState)
    (h : activate s req = .ok (resp, s1)) :
    s1.licenses = s.licenses ∧ s1.banned = s.banned ∧ s1.today = s.today := by
  obtain ⟨lic, -, -, -, -, hcase⟩ := activate_ok_cases s req resp s1 h
  rcases hcase with ⟨existing, -, rfl⟩ | ⟨-, -, rfl⟩
  · split <;> exact ⟨rfl, rfl, rfl⟩
  · exact ⟨rfl, rfl, rfl⟩

theorem deactivate_ok_frame (s : ServerState) (req : ActivateRequest)
    (resp : DeactivateResponse) (s1 : ServerState)
    (h : deactivate s req = .ok (resp, s1)) :
    s1.licenses = s.licenses ∧ s1.banned = s.banned ∧ s1.today = s.today ∧
      s1.nextId = s.nextId := by
  obtain ⟨act, -, -, rfl⟩ := deactivate_ok_cases s req resp s1 h
  exact ⟨rfl, rfl, rfl, rfl⟩

theorem stepState_licenses (s : ServerState) (op : Op) :
    (stepState s op).licenses = s.licenses := by
  cases op with
  | activateOp req =>
    simp only [stepState]
    split
    · rename_i resp s1 heq
      exact (activate_ok_frame s req resp s1 heq).1
    · rfl
  | validateOp req => rfl
  | deactivateOp req =>
    simp only [stepState]
    split
    · rename_i resp s1 heq
      exact (deactivate_ok_frame s req resp s1 heq).1
    · rfl

theorem stepState_banned (s : ServerState) (op : Op) :
    (stepState s op).banned = s.banned := by
  cases op with
  | activateOp req =>
    simp only [stepState]
    split
    · rename_i resp s1 heq
      exact (activate_ok_frame s req resp s1 heq).2.1
    · rfl
  | validateOp req => rfl
  | deactivateOp req =>
    simp only [stepState]
    split
    · rename_i resp s1 heq
      exact (deactivate_ok_frame s req resp s1 heq).2.1
    · rfl

theorem findLicense_stepState (s : ServerState) (op : Op) (k : String) :
    findLicense (stepState s op) k = findLicense s k := by
  unfold findLicense
  rw [stepState_licenses]

theorem runOps_cons (s : ServerState) (op : Op) (t : List Op) :
    runOps s (op :: t) = runOps (stepState s op) t := rfl

/-! ### Seat-count preservation -/

theorem seatInv_activate (s : ServerState) (req : ActivateRequest)
    (resp : ActivateResponse) (s1 : ServerState) (L : License)
    (hL : findLicense s L.key = some L)
    (h : activate s req = .ok (resp, s1))
    (hinv : liveCount s L.key ≤ L.max_seats) :
    liveCount s1 L.key ≤ L.max_seats := by
  obtain ⟨lic, -, hlic, -, -, hcase⟩ := activate_ok_cases s req resp s1 h
  rcases hcase with ⟨existing, -, rfl⟩ | ⟨-, hseat, rfl⟩
  · split
    · simpa [liveCount, liveRows_setUsername] using hinv
    · exact hinv
  · by_cases hk : req.license_key = L.key
    · rw [hk] at hlic hseat
      rw [hk]
      rw [hlic] at hL
      injection hL with hLL
      subst hLL
      simp [liveCount, liveRows_append, List.length_append]
      omega
    · simp only [liveCount, liveRows_append]
      have hpred : (req.license_key == L.key && !(false : Bool)) = false := by
        simp [hk]
      rw [hpred]
      simpa using hinv

theorem seatInv_deactivate (s : ServerState) (req : ActivateRequest)
    (resp : DeactivateResponse) (s1 : ServerState)
    (h : deactivate s req = .ok (resp, s1)) (k : String) :
    liveCount s1 k ≤ liveCount s k := by
  obtain ⟨act, -, -, rfl⟩ := deactivate_ok_cases s req resp s1 h
  exact liveRows_setRevoked_le s.activations act.id k

theorem seatInv_stepState (s : ServerState) (op : Op) (L : License)
    (hL : findLicense s L.key = some L)
    (hinv : liveCount s L.key ≤ L.max_seats) :
    liveCount (stepState s op) L.key ≤ L.max_seats := by
  cases op with
  | activateOp req =>
    simp only [stepState]
    split
    · rename_i resp s1 heq
      exact seatInv_activate s req resp s1 L hL heq hinv
    · exact hinv
  | validateOp req => exact hinv
  | deactivateOp req =>
    simp only [stepState]
    split
    · rename_i resp s1 heq
      exact le_trans (seatInv_deactivate s req resp s1 heq L.key) hinv
    · exact hinv

theorem seatInv_runOps (s : ServerState) (ops : List Op) (L : License)
    (hL : findLicense s L.key = some L)
    (hinv : liveCount s L.key ≤ L.max_seats) :
    liveCount (runOps s ops) L.key ≤ L.max_seats := by
  induction ops generalizing s with
  | nil => exact hinv
  | cons op t ih =>
    rw [runOps_cons]
    exact ih (stepState s op)
      (by rw [findLicense_stepState]; exact hL)
      (seatInv_stepState s op L hL hinv)

/-! ### Live-row lookup facts -/

theorem liveForPair_some (s : ServerState) (k m : String) (act : Activation)
    (h : liveForPair s k m = some act) :
    act ∈ s.activations ∧ act.license_key = k ∧ act.machine_id = m ∧
      act.revoked = false := by
  have hmem := List.mem_of_find?_eq_some h
  have hp := List.find?_some h
  simp only [Bool.and_eq_true, beq_iff_eq, Bool.not_eq_true'] at hp
  exact ⟨hmem, hp.1.1, hp.1.2, hp.2⟩

theorem liveForPair_none (s : ServerState) (k m : String)
    (h : liveForPair s k m = none) :
    ∀ a ∈ s.activations,
      ¬(a.license_key = k ∧ a.machine_id = m ∧ a.revoked = false) := by
  intro a ha hc
  have := List.find?_eq_none.mp h a ha
  simp only [Bool.and_eq_true, beq_iff_eq, Bool.not_eq_true'] at this
  exact this ⟨⟨hc.1, hc.2.1⟩, hc.2.2⟩

/-! ### Primary-key well-formedness is preserved -/

theorem idsUnique_map (l : List Activation) (g : Activation → Activation)
    (hid : ∀ a, (g a).id = a.id)
    (h : ∀ a ∈ l, ∀ b ∈ l, a.id = b.id → a = b) :
    ∀ a ∈ l.map g, ∀ b ∈ l.map g, a.id = b.id → a = b := by
  intro x hx y hy heq
  obtain ⟨a, ha, rfl⟩ := List.mem_map.mp hx
  obtain ⟨b, hb, rfl⟩ := List.mem_map.mp hy
  rw [hid a, hid b] at heq
  rw [h a ha b hb heq]

theorem setUsername_id (i : Nat) (u : Option String) (a : Activation) :
    ((fun a => if a.id == i then { a with username := u } else a) a).id = a.id := by
  by_cases hid : (a.id == i) = true <;> simp [hid]

theorem setRevoked_id (i : Nat) (a : Activation) :
    ((fun a => if a.id == i then { a with revoked := true } else a) a).id = a.id := by
  by_cases hid : (a.id == i) = true <;> simp [hid]

theorem WFids_stepState (s : ServerState) (op : Op) (h : WFids s) :
    WFids (stepState s op) := by
  obtain ⟨huniq, hbdd⟩ := h
  cases op with
  | validateOp req => exact ⟨huniq, hbdd⟩
  | deactivateOp req =>
    simp only [stepState]
    split
    · rename_i resp s1 heq
      obtain ⟨act, -, -, rfl⟩ := deactivate_ok_cases s req resp s1 heq
      refine ⟨idsUnique_map _ _ (setRevoked_id act.id) huniq, ?_⟩
      intro x hx
      obtain ⟨a, ha, rfl⟩ := List.mem_map.mp hx
      rw [setRevoked_id act.id a]
      exact hbdd a ha
    · exact ⟨huniq, hbdd⟩
  | activateOp req =>
    simp only [stepState]
    split
    · rename_i resp s1 heq
      obtain ⟨lic, -, -, -, -, hcase⟩ := activate_ok_cases s req resp s1 heq
      rcases hcase with ⟨existing, -, rfl⟩ | ⟨-, -, rfl⟩
      · split
        · refine ⟨idsUnique_map _ _ (setUsername_id existing.id req.username) huniq, ?_⟩
          intro x hx
          obtain ⟨a, ha, rfl⟩ := List.mem_map.mp hx
          rw [setUsername_id existing.id req.username a]
          exact hbdd a ha
        · exact ⟨huniq, hbdd⟩
      · constructor
        · intro x hx y hy heqid
          simp only [List.mem_append, List.mem_singleton] at hx hy
          rcases hx with hx | rfl <;> rcases hy with hy | rfl
          · exact huniq x hx y hy heqid
          · exact absurd heqid (Nat.ne_of_lt (hbdd x hx))
          · exact absurd heqid.symm (Nat.ne_of_lt (hbdd y hy))
          · rfl
        · intro x hx
          simp only [List.mem_append, List.mem_singleton] at hx
          rcases hx with hx | rfl
          · exact Nat.lt_succ_of_lt (hbdd x hx)
          · exact Nat.lt_succ_self _
    · exact ⟨huniq, hbdd⟩

theorem WFids_runOps (s : ServerState) (ops : List Op) (h : WFids s) :
    WFids (runOps s ops) := by
  induction ops generalizing s with
  | nil => exact h
  | cons op t ih =>
    rw [runOps_cons]
    exact ih (stepState s op) (WFids_stepState s op h)

/-! ### Revoked rows persist untouched -/

theorem revoked_persists_stepState (s : ServerState) (op : Op) (h : WFids s) :
    ∀ a ∈ s.activations, a.revoked = true → a ∈ (stepState s op).activations := by
  obtain ⟨huniq, hbdd⟩ := h
  intro a ha harev
  cases op with
  | validateOp req => exact ha
  | deactivateOp req =>
    simp only [stepState]
    split
    · rename_i resp s1 heq
      obtain ⟨act, hact, -, rfl⟩ := deactivate_ok_cases s req resp s1 heq
      obtain ⟨hactmem, -, -, hactrev⟩ := liveForPair_some s _ _ act hact
      have hne : (a.id == act.id) = false := by
        rw [beq_eq_false_iff_ne]
        intro hid
        have := huniq a ha act hactmem hid
        rw [this] at harev
        rw [harev] at hactrev
        exact Bool.noConfusion hactrev
      refine List.mem_map.mpr ⟨a, ha, ?_⟩
      simp [setRevoked, hne]
    · exact ha
  | activateOp req =>
    simp only [stepState]
    split
    · rename_i resp s1 heq
      obtain ⟨lic, -, -, -, -, hcase⟩ := activate_ok_cases s req resp s1 heq
      rcases hcase with ⟨existing, hex, rfl⟩ | ⟨-, -, rfl⟩
      · obtain ⟨hexmem, -, -, hexrev⟩ := liveForPair_some s _ _ existing hex
        split
        · have hne : (a.id == existing.id) = false := by
            rw [beq_eq_false_iff_ne]
            intro hid
            have := huniq a ha existing hexmem hid
            rw [this] at harev
            rw [harev] at hexrev
            exact Bool.noConfusion hexrev
          refine List.mem_map.mpr ⟨a, ha, ?_⟩
          simp [hne]
        · exact ha
      · exact List.mem_append_left _ ha
    · exact ha

theorem revoked_persists_runOps (s : ServerState) (ops : List Op) (h : WFids s) :
    ∀ a ∈ s.activations, a.revoked = true → a ∈ (runOps s ops).activations := by
  induction ops generalizing s with
  | nil => intro a ha _; exact ha
  | cons op t ih =>
    intro a ha harev
    rw [runOps_cons]
    exact ih (stepState s op) (WFids_stepState s op h) a
      (revoked_persists_stepState s op h a ha harev) harev

/-! ### After a successful deactivate the pair has no live row -/

theorem liveForPair_setRevoked (s : ServerState) (k m : String) (act : Activation)
    (hone : atMostOneLive s)
    (hact : liveForPair s k m = some act) :
    liveForPair { s with activations := setRevoked s.activations act.id } k m = none := by
  obtain ⟨hmem, hkey, hmid, hrev⟩ := liveForPair_some s k m act hact
  unfold liveForPair setRevoked
  rw [List.find?_eq_none]
  intro c hc
  obtain ⟨a, ha, rfl⟩ := List.mem_map.mp hc
  by_cases hid : (a.id == act.id) = true
  · simp [hid]
  · rw [if_neg hid]
    intro hpred
    simp only [Bool.and_eq_true, beq_iff_eq, Bool.not_eq_true'] at hpred
    have : a.id = act.id :=
      hone a ha act hmem hpred.2 hrev (hpred.1.1.trans hkey.symm)
        (hpred.1.2.trans hmid.symm)
    exact hid (beq_iff_eq.mpr this)

/-! ### Outcome equations for activate -/

theorem activate_of_banned (s : ServerState) (req : ActivateRequest)
    (hban : isBanned s req.machine_id = true) :
    activate s req = .error ⟨403, "This machine has been banned"⟩ := by
  unfold activate
  rw [hban]
  simp

theorem activate_of_notfound (s : ServerState) (req : ActivateRequest)
    (hban : isBanned s req.machine_id = false)
    (hlic : findLicense s req.license_key = none) :
    activate s req = .error ⟨404, "License not found"⟩ := by
  unfold activate
  rw [hban, hlic]
  simp

theorem activate_of_expired (s : ServerState) (req : ActivateRequest) (lic : License)
    (hban : isBanned s req.machine_id = false)
    (hlic : findLicense s req.license_key = some lic)
    (hexp : lic.expiry < s.today) :
    activate s req = .error ⟨403, "License has expired"⟩ := by
  unfold activate
  rw [hban, hlic]
  simp [hexp]

theorem activate_of_seatfull (s : ServerState) (req : ActivateRequest) (lic : License)
    (hban : isBanned s req.machine_id = false)
    (hlic : findLicense s req.license_key = some lic)
    (hexp : ¬ lic.expiry < s.today)
    (hnolive : liveForPair s req.license_key req.machine_id = none)
    (hseat : lic.max_seats ≤ liveCount s req.license_key) :
    activate s req = .error ⟨403, seatLimitMsg lic.max_seats⟩ := by
  simp only [liveCount] at hseat
  unfold activate
  rw [hban, hlic, hnolive]
  simp [hexp, hseat]

theorem activate_of_live (s : ServerState) (req : ActivateRequest) (lic : License)
    (ex : Activation)
    (hban : isBanned s req.machine_id = false)
    (hlic : findLicense s req.license_key = some lic)
    (hexp : ¬ lic.expiry < s.today)
    (hex : liveForPair s req.license_key req.machine_id = some ex) :
    activate s req =
      .ok (⟨make_token lic req.machine_id, lic.email, lic.plan, dateStr lic.expiry⟩,
        if pyTruthy req.username then
          { s with activations := setUsername s.activations ex.id req.username }
        else s) := by
  unfold activate
  rw [hban, hlic, hex]
  simp [hexp]

theorem activate_of_headroom (s : ServerState) (req : ActivateRequest) (lic : License)
    (hban : isBanned s req.machine_id = false)
    (hlic : findLicense s req.license_key = some lic)
    (hexp : ¬ lic.expiry < s.today)
    (hnolive : liveForPair s req.license_key req.machine_id = none)
    (hseat : liveCount s req.license_key < lic.max_seats) :
    activate s req =
      .ok (⟨make_token lic req.machine_id, lic.email, lic.plan, dateStr lic.expiry⟩,
        { s with
          activations := s.activations ++
            [⟨s.nextId, req.license_key, req.machine_id, req.username, s.today, false⟩]
          nextId := s.nextId + 1 }) := by
  have hseat' : ¬ lic.max_seats ≤ (liveRows s.activations req.license_key).length := by
    simp only [liveCount] at hseat
    omega
  unfold activate
  rw [hban, hlic, hnolive]
  simp [hexp, hseat']

theorem activate_rejected_of_seatfull (s : ServerState) (req : ActivateRequest)
    (L : License)
    (hlic : findLicense s req.license_key = some L)
    (hnolive : liveForPair s req.license_key req.machine_id = none)
    (hseat : L.max_seats ≤ liveCount s req.license_key) :
    ∃ e, activate s req = .error e := by
  cases hban : isBanned s req.machine_id with
  | true => exact ⟨_, activate_of_banned s req hban⟩
  | false =>
    by_cases hexp : L.expiry < s.today
    · exact ⟨_, activate_of_expired s req L hban hlic hexp⟩
    · exact ⟨_, activate_of_seatfull s req L hban hlic hexp hnolive hseat⟩

theorem runOps_banned (s : ServerState) (ops : List Op) :
    (runOps s ops).banned = s.banned := by
  induction ops generalizing s with
  | nil => rfl
  | cons op t ih =>
    rw [runOps_cons, ih (stepState s op), stepState_banned]

/-! ### Claim theorems -/

/-- Claim C2: Activate performs its checks in exactly this order, short-circuiting
at the first failure: (1) a banned machine fails 403 "This machine has been banned"
without consulting the License Directory or Seat Ledger (the outcome is the same
for every licenses/activations table); (2) an unknown key fails 404 "License not
found"; (3) an expiry strictly before today fails 403 "License has expired";
(4) lacking seat headroom (no live row for the pair and live count at the cap)
fails 403 with the seat-limit message; (5) otherwise it succeeds with
token/email/plan/expiry_date taken from the current License row. -/
theorem C2_activate_check_order (s : ServerState) (req : ActivateRequest) :
    (isBanned s req.machine_id = true →
      ∀ ls : List License, ∀ acts : List Activation, ∀ n : Nat,
        activate { s with licenses := ls, activations := acts, nextId := n } req =
          .error ⟨403, "This machine has been banned"⟩)
  ∧ (isBanned s req.machine_id = false → findLicense s req.license_key = none →
      activate s req = .error ⟨404, "License not found"⟩)
  ∧ (∀ lic, isBanned s req.machine_id = false →
      findLicense s req.license_key = some lic → lic.expiry < s.today →
      activate s req = .error ⟨403, "License has expired"⟩)
  ∧ (∀ lic, isBanned s req.machine_id = false →
      findLicense s req.license_key = some lic → ¬ lic.expiry < s.today →
      liveForPair s req.license_key req.machine_id = none →
      lic.max_seats ≤ liveCount s req.license_key →
      activate s req = .error ⟨403, seatLimitMsg lic.max_seats⟩)
  ∧ (∀ lic, isBanned s req.machine_id = false →
      findLicense s req.license_key = some lic → ¬ lic.expiry < s.today →
      (liveForPair s req.license_key req.machine_id ≠ none ∨
        liveCount s req.license_key < lic.max_seats) →
      ∃ s1, activate s req =
        .ok (⟨make_token lic req.machine_id, lic.email, lic.plan, dateStr lic.expiry⟩,
          s1)) := by
  refine ⟨?_, ?_, ?_, ?_, ?_⟩
  · intro hban ls acts n
    exact activate_of_banned { s with licenses := ls, activations := acts, nextId := n }
      req hban
  · intro hban hnone
    exact activate_of_notfound s req hban hnone
  · intro lic hban hlic hexp
    exact activate_of_expired s req lic hban hlic hexp
  · intro lic hban hlic hexp hnolive hseat
    exact activate_of_seatfull s req lic hban hlic hexp hnolive hseat
  · intro lic hban hlic hexp hcase
    cases hex : liveForPair s req.license_key req.machine_id with
    | some ex => exact ⟨_, activate_of_live s req lic ex hban hlic hexp hex⟩
    | none =>
      have hseat : liveCount s req.license_key < lic.max_seats := by
        rcases hcase with hlive | hseat
        · exact absurd hex hlive
        · exact hseat
      exact ⟨_, activate_of_headroom s req lic hban hlic hexp hex hseat⟩

/-- Closed instance of C2: on a state whose ban table holds machine M, activate
for M fails with the ban error. -/
theorem C2_activate_check_order_witness :
    activate ⟨[], [], [⟨"M", none⟩], 0, 0⟩ ⟨"K", "M", none⟩ =
      .error ⟨403, "This machine has been banned"⟩ :=
  (C2_activate_check_order ⟨[], [], [⟨"M", none⟩], 0, 0⟩ ⟨"K", "M", none⟩).1
    (by decide) [] [] 0

/-- Claim C5: Validate recomputes expiry freshly on every call. Once the ban,
signature, machine, license-lookup and live-activation checks pass, the response
is computed solely from the current License row and today: `expired` is
`lic.expiry < today` and `valid` its negation. The payload `p` is arbitrary
except for its `machine` and `key` claims, so the snapshot `plan`/`expiry`
embedded in the token cannot influence the result. -/
theorem C5_validate_fresh_expiry (s : ServerState) (p : TokenPayload) (mid : String)
    (lic : License)
    (hban : isBanned s mid = false)
    (hm : p.machine = some mid)
    (hlic : findLicenseOpt s p.key = some lic)
    (hlive : liveForPairOpt s p.key mid ≠ none) :
    validate s ⟨.signed p, mid⟩ =
      { valid := !decide (lic.expiry < s.today), plan := lic.plan, email := lic.email,
        expired := decide (lic.expiry < s.today),
        expiry_date := some (dateStr lic.expiry), license_key := p.key } := by
  cases hact : liveForPairOpt s p.key mid with
  | none => exact absurd hact hlive
  | some act =>
    simp [validate, hban, hm, hlic, hact]

/-- Closed instance of C5: token embeds a far-future expiry snapshot, but the
stored License row has expired; Validate answers valid:false, expired:true. -/
theorem C5_validate_fresh_expiry_witness :
    validate ⟨[⟨"K", "e", "pro", 0, 1⟩], [⟨0, "K", "M", none, 0, false⟩], [], 1, 5⟩
        ⟨.signed ⟨some "e", some "K", some "M", some "pro", some "9999"⟩, "M"⟩ =
      { valid := false, plan := "pro", email := "e", expired := true,
        expiry_date := some (dateStr 0), license_key := some "K" } := by
  have h := C5_validate_fresh_expiry
    ⟨[⟨"K", "e", "pro", 0, 1⟩], [⟨0, "K", "M", none, 0, false⟩], [], 1, 5⟩
    ⟨some "e", some "K", some "M", some "pro", some "9999"⟩ "M" ⟨"K", "e", "pro", 0, 1⟩
    (by decide) rfl (by decide) (by decide)
  rw [h]
  decide

/-- Claim C6 as stated is false on the code: a token for machine A validated with
machine B is rejected, but the message is "Machine ID mismatch", not
"Machine mismatch". -/
theorem C6_counterexample :
    (validate ⟨[], [], [], 0, 0⟩
        ⟨.signed ⟨none, none, some "A", none, none⟩, "B"⟩).valid = false ∧
    (validate ⟨[], [], [], 0, 0⟩
        ⟨.signed ⟨none, none, some "A", none, none⟩, "B"⟩).message =
      some "Machine ID mismatch" ∧
    (validate ⟨[], [], [], 0, 0⟩
        ⟨.signed ⟨none, none, some "A", none, none⟩, "B"⟩).message ≠
      some "Machine mismatch" := by
  decide

/-- Claim C6 (amended): for every validly-signed token carrying machine claim A,
validating with a different, non-banned machine_id B yields valid:false with
message "Machine ID mismatch", whatever A's entitlement state (the license and
activation tables are arbitrary and never consulted on this path). -/
theorem C6_machine_mismatch (s : ServerState) (p : TokenPayload) (A B : String)
    (hban : isBanned s B = false) (hA : p.machine = some A) (hAB : A ≠ B) :
    validate s ⟨.signed p, B⟩ =
      { valid := false, plan := "", email := "",
        message := some "Machine ID mismatch" } := by
  simp [validate, hban, hA, hAB]

/-- Closed instance of the amended C6. -/
theorem C6_machine_mismatch_witness :
    validate ⟨[], [], [], 0, 0⟩ ⟨.signed ⟨none, none, some "A", none, none⟩, "B"⟩ =
      { valid := false, plan := "", email := "",
        message := some "Machine ID mismatch" } :=
  C6_machine_mismatch ⟨[], [], [], 0, 0⟩ ⟨none, none, some "A", none, none⟩ "A" "B"
    (by decide) rfl (by decide)

/-- Claim C10: a validly-signed token with a missing "machine" claim is read as
an absent value, so for a non-banned, non-empty caller machine_id it is reported
as a machine-mismatch rejection; a missing "key" claim falls through the machine
check and is reported as a license-not-found rejection (SQL `key = NULL` matches
no License row). Validate stays total on such payloads. -/
theorem C10_deficient_payload_total (s : ServerState) (p : TokenPayload)
    (mid : String) (hban : isBanned s mid = false) :
    (p.machine = none → mid ≠ "" →
      validate s ⟨.signed p, mid⟩ =
        { valid := false, plan := "", email := "",
          message := some "Machine ID mismatch" })
  ∧ (p.key = none → p.machine = some mid →
      validate s ⟨.signed p, mid⟩ =
        { valid := false, plan := "", email := "",
          message := some "License not found" }) := by
  constructor
  · intro hm _
    simp [validate, hban, hm]
  · intro hk hm
    have hlic : findLicenseOpt s p.key = none := by
      rw [hk]
      unfold findLicenseOpt
      rw [List.find?_eq_none]
      intro l _
      simp
    simp [validate, hban, hm, hlic]

/-- Closed instance of C10: fully empty payload is answered with the mismatch
rejection, not an exception. -/
theorem C10_deficient_payload_total_witness :
    validate ⟨[], [], [], 0, 0⟩ ⟨.signed ⟨none, none, none, none, none⟩, "M"⟩ =
      { valid := false, plan := "", email := "",
        message := some "Machine ID mismatch" } :=
  (C10_deficient_payload_total ⟨[], [], [], 0, 0⟩ ⟨none, none, none, none, none⟩ "M"
    (by decide)).1 rfl (by decide)

/-- Claim C1: seat accounting invariant. If license L is on file and its live
count is within max_seats, then (1) after any sequence of core operations —
hence after every Activate — the live count for L is still within max_seats;
(2) an Activate for a pair with no live row while the count is at or above the
cap is rejected, and specifically with the seat-limit failure when the earlier
ban/expiry checks pass; (3) a license with max_seats = 0 never gains a live
activation. -/
theorem C1_seat_invariant (s : ServerState) (L : License)
    (hL : findLicense s L.key = some L)
    (hinv : liveCount s L.key ≤ L.max_seats) :
    (∀ ops : List Op, liveCount (runOps s ops) L.key ≤ L.max_seats)
  ∧ (∀ req : ActivateRequest, req.license_key = L.key →
      liveForPair s L.key req.machine_id = none →
      L.max_seats ≤ liveCount s L.key →
      (∃ e, activate s req = .error e) ∧
      (isBanned s req.machine_id = false → ¬ L.expiry < s.today →
        activate s req = .error ⟨403, seatLimitMsg L.max_seats⟩))
  ∧ (L.max_seats = 0 → ∀ ops : List Op, liveCount (runOps s ops) L.key = 0) := by
  refine ⟨?_, ?_, ?_⟩
  · intro ops
    exact seatInv_runOps s ops L hL hinv
  · intro req hreqk hnolive hfull
    have hlic : findLicense s req.license_key = some L := by
      rw [hreqk]
      exact hL
    have hnolive' : liveForPair s req.license_key req.machine_id = none := by
      rw [hreqk]
      exact hnolive
    have hfull' : L.max_seats ≤ liveCount s req.license_key := by
      rw [hreqk]
      exact hfull
    constructor
    · exact activate_rejected_of_seatfull s req L hlic hnolive' hfull'
    · intro hban hexp
      exact activate_of_seatfull s req L hban hlic hexp hnolive' hfull'
  · intro h0 ops
    have h := seatInv_runOps s ops L hL hinv
    rw [h0] at h
    exact Nat.le_zero.mp h

/-- Closed instance of C1: with max_seats = 1 and machine M1 holding the only
seat, an Activate for fresh machine M2 fails with the seat-limit error. -/
theorem C1_seat_invariant_witness :
    activate ⟨[⟨"K", "e", "pro", 9, 1⟩], [⟨0, "K", "M1", none, 0, false⟩], [], 1, 5⟩
        ⟨"K", "M2", none⟩ =
      .error ⟨403, seatLimitMsg 1⟩ :=
  ((C1_seat_invariant
      ⟨[⟨"K", "e", "pro", 9, 1⟩], [⟨0, "K", "M1", none, 0, false⟩], [], 1, 5⟩
      ⟨"K", "e", "pro", 9, 1⟩ (by decide) (by decide)).2.1
    ⟨"K", "M2", none⟩ rfl (by decide) (by decide)).2 (by decide) (by decide)

/-- Claim C3 as stated is false on the code, on two counts. First, re-activation
of a pair with a live row does not always succeed: the ban, license-lookup and
expiry checks run first, so with the license expired the re-activate fails.
Second, a supplied username is not always written: Python truthiness skips the
update when the supplied username is the empty string, leaving "bob" in place. -/
theorem C3_counterexample :
    (liveForPair ⟨[⟨"K", "e", "pro", 0, 1⟩], [⟨0, "K", "M", some "bob", 0, false⟩],
          [], 1, 5⟩ "K" "M" = some ⟨0, "K", "M", some "bob", 0, false⟩ ∧
      activate ⟨[⟨"K", "e", "pro", 0, 1⟩], [⟨0, "K", "M", some "bob", 0, false⟩],
          [], 1, 5⟩ ⟨"K", "M", some "alice"⟩ =
        .error ⟨403, "License has expired"⟩)
  ∧ (activate ⟨[⟨"K", "e", "pro", 9, 1⟩], [⟨0, "K", "M", some "bob", 0, false⟩],
        [], 1, 5⟩ ⟨"K", "M", some ""⟩ =
      .ok (⟨make_token ⟨"K", "e", "pro", 9, 1⟩ "M", "e", "pro", dateStr 9⟩,
        ⟨[⟨"K", "e", "pro", 9, 1⟩], [⟨0, "K", "M", some "bob", 0, false⟩], [], 1, 5⟩)) := by
  decide

/-- The post-state of an idempotent re-activation: only the live row's username
may change, and only when the request's username is truthy. -/
def reactivateState (s : ServerState) (req : ActivateRequest) (ex : Activation) :
    ServerState :=
  if pyTruthy req.username then
    { s with activations := setUsername s.activations ex.id req.username }
  else s

/-- Claim C3 (amended): for a pair holding a live row, Activate succeeds
provided the preceding ban, license-lookup and expiry checks pass; it performs
no seat-count check (it succeeds whatever the live count), creates no new row
and changes no live count, returns a fresh token built from the current License
row, and updates the live row's username exactly when the supplied username is
non-empty. -/
theorem C3_reactivation (s : ServerState) (req : ActivateRequest) (lic : License)
    (ex : Activation)
    (hban : isBanned s req.machine_id = false)
    (hlic : findLicense s req.license_key = some lic)
    (hexp : ¬ lic.expiry < s.today)
    (hex : liveForPair s req.license_key req.machine_id = some ex) :
    activate s req =
      .ok (⟨make_token lic req.machine_id, lic.email, lic.plan, dateStr lic.expiry⟩,
        reactivateState s req ex) ∧
    (∀ k, liveCount (reactivateState s req ex) k = liveCount s k) ∧
    (reactivateState s req ex).activations.length = s.activations.length ∧
    (pyTruthy req.username = true →
      (reactivateState s req ex).activations =
        setUsername s.activations ex.id req.username) ∧
    (pyTruthy req.username = false → reactivateState s req ex = s) := by
  refine ⟨activate_of_live s req lic ex hban hlic hexp hex, ?_, ?_, ?_, ?_⟩
  · intro k
    unfold reactivateState
    split
    · simpa [liveCount] using liveRows_setUsername s.activations ex.id req.username k
    · rfl
  · unfold reactivateState
    split
    · simp [setUsername]
    · rfl
  · intro hu
    unfold reactivateState
    rw [if_pos hu]
  · intro hu
    unfold reactivateState
    rw [if_neg (by simp [hu])]

/-- Closed instance of the amended C3: re-activating the live ("K","M") row
succeeds with a fresh token. -/
theorem C3_reactivation_witness :
    activate ⟨[⟨"K", "e", "pro", 9, 1⟩], [⟨0, "K", "M", some "bob", 0, false⟩], [], 1, 5⟩
        ⟨"K", "M", some "alice"⟩ =
      .ok (⟨make_token ⟨"K", "e", "pro", 9, 1⟩ "M", "e", "pro", dateStr 9⟩,
        reactivateState
          ⟨[⟨"K", "e", "pro", 9, 1⟩], [⟨0, "K", "M", some "bob", 0, false⟩], [], 1, 5⟩
          ⟨"K", "M", some "alice"⟩ ⟨0, "K", "M", some "bob", 0, false⟩) :=
  (C3_reactivation
    ⟨[⟨"K", "e", "pro", 9, 1⟩], [⟨0, "K", "M", some "bob", 0, false⟩], [], 1, 5⟩
    ⟨"K", "M", some "alice"⟩ ⟨"K", "e", "pro", 9, 1⟩ ⟨0, "K", "M", some "bob", 0, false⟩
    (by decide) (by decide) (by decide) (by decide)).1

/-- Claim C4 as stated is false on the code: the license-expired rejection
returns valid:false with message = None — no human-readable message — signalling
only through the expired flag. -/
theorem C4_counterexample :
    (validate ⟨[⟨"K", "e", "pro", 0, 1⟩], [⟨0, "K", "M", none, 0, false⟩], [], 1, 5⟩
        ⟨.signed ⟨some "e", some "K", some "M", some "pro", some "0"⟩, "M"⟩).valid =
      false ∧
    (validate ⟨[⟨"K", "e", "pro", 0, 1⟩], [⟨0, "K", "M", none, 0, false⟩], [], 1, 5⟩
        ⟨.signed ⟨some "e", some "K", some "M", some "pro", some "0"⟩, "M"⟩).message =
      none := by
  decide

/-- Claim C4 (amended): Validate never raises — it is a total function into
ValidateResponse — and every rejected outcome is reported in-band: a response
with valid = false either carries one of the five human-readable rejection
messages (banned, invalid signature, machine mismatch, license not found,
activation revoked or not found), or is the license-expired outcome, which sets
expired = true and carries no message. -/
theorem C4_soft_failures (s : ServerState) (req : ValidateRequest) :
    (validate s req).valid = false →
      ((validate s req).message = some "This machine has been banned" ∨
       (validate s req).message = some "Invalid token" ∨
       (validate s req).message = some "Machine ID mismatch" ∨
       (validate s req).message = some "License not found" ∨
       (validate s req).message = some "Activation revoked or not found" ∨
       ((validate s req).expired = true ∧ (validate s req).message = none)) := by
  unfold validate
  split
  · intro _
    exact Or.inl rfl
  · split
    · intro _
      exact Or.inr (Or.inl rfl)
    · split
      · intro _
        exact Or.inr (Or.inr (Or.inl rfl))
      · split
        · intro _
          exact Or.inr (Or.inr (Or.inr (Or.inl rfl)))
        · split
          · intro _
            exact Or.inr (Or.inr (Or.inr (Or.inr (Or.inl rfl))))
          · intro hval
            refine Or.inr (Or.inr (Or.inr (Or.inr (Or.inr ⟨?_, rfl⟩))))
            simpa using hval

/-- Closed instance of the amended C4: a banned machine gets its rejection
in-band. -/
theorem C4_soft_failures_witness :
    (validate ⟨[], [], [⟨"M", none⟩], 0, 0⟩ ⟨.invalid, "M"⟩).message =
        some "This machine has been banned" ∨
      (validate ⟨[], [], [⟨"M", none⟩], 0, 0⟩ ⟨.invalid, "M"⟩).message =
        some "Invalid token" ∨
      (validate ⟨[], [], [⟨"M", none⟩], 0, 0⟩ ⟨.invalid, "M"⟩).message =
        some "Machine ID mismatch" ∨
      (validate ⟨[], [], [⟨"M", none⟩], 0, 0⟩ ⟨.invalid, "M"⟩).message =
        some "License not found" ∨
      (validate ⟨[], [], [⟨"M", none⟩], 0, 0⟩ ⟨.invalid, "M"⟩).message =
        some "Activation revoked or not found" ∨
      ((validate ⟨[], [], [⟨"M", none⟩], 0, 0⟩ ⟨.invalid, "M"⟩).expired = true ∧
        (validate ⟨[], [], [⟨"M", none⟩], 0, 0⟩ ⟨.invalid, "M"⟩).message = none) :=
  C4_soft_failures ⟨[], [], [⟨"M", none⟩], 0, 0⟩ ⟨.invalid, "M"⟩ (by decide)

/-- Claim C7: Deactivate on a pair with no live row fails with 404 "Active
activation not found" — a failure, never a silent no-op. On success the response
is ok, the licenses/ban tables and id counter are untouched, exactly the live
row (found by the lookup) has its revoked flag set while every other row is
byte-for-byte unchanged, and because the pair then has no live row a second
Deactivate on the same pair fails with the same 404. Stated for states with
unique row ids and at most one live row per pair. -/
theorem C7_deactivate (s : ServerState) (req : ActivateRequest)
    (huniq : idsUnique s) (hone : atMostOneLive s) :
    (liveForPair s req.license_key req.machine_id = none →
      deactivate s req = .error ⟨404, "Active activation not found"⟩)
  ∧ (∀ resp s1, deactivate s req = .ok (resp, s1) →
      resp = ⟨true, "Deactivated successfully"⟩ ∧
      s1.licenses = s.licenses ∧ s1.banned = s.banned ∧ s1.nextId = s.nextId ∧
      (∃ act, liveForPair s req.license_key req.machine_id = some act ∧
        act.revoked = false ∧
        s1.activations =
          s.activations.map
            (fun b => if b = act then { act with revoked := true } else b)) ∧
      liveForPair s1 req.license_key req.machine_id = none ∧
      deactivate s1 req = .error ⟨404, "Active activation not found"⟩) := by
  constructor
  · exact deactivate_of_no_live s req
  · intro resp s1 h
    obtain ⟨act, hact, hresp, rfl⟩ := deactivate_ok_cases s req resp s1 h
    obtain ⟨hmem, -, -, hrev⟩ := liveForPair_some s _ _ act hact
    have hnone := liveForPair_setRevoked s _ _ act hone hact
    refine ⟨hresp, rfl, rfl, rfl, ⟨act, hact, hrev, ?_⟩, hnone,
      deactivate_of_no_live _ req hnone⟩
    show setRevoked s.activations act.id = _
    unfold setRevoked
    apply List.map_congr_left
    intro b hb
    by_cases hd : b = act
    · subst hd
      simp
    · have hbid : (b.id == act.id) = false := by
        rw [beq_eq_false_iff_ne]
        intro hid
        exact hd (huniq b hb act hmem hid)
      simp [hbid, hd]

/-- Closed instance of C7: deactivating, then deactivating again, fails the
second time with 404. -/
theorem C7_deactivate_witness :
    deactivate ⟨[], [⟨0, "K", "M", none, 0, true⟩], [], 1, 0⟩ ⟨"K", "M", none⟩ =
      .error ⟨404, "Active activation not found"⟩ :=
  ((C7_deactivate ⟨[], [⟨0, "K", "M", none, 0, false⟩], [], 1, 0⟩ ⟨"K", "M", none⟩
      (by unfold idsUnique; decide) (by unfold atMostOneLive; decide)).2
    ⟨true, "Deactivated successfully"⟩ ⟨[], [⟨0, "K", "M", none, 0, true⟩], [], 1, 0⟩
    (by decide)).2.2.2.2.2.2

/-- Claim C8 as stated is false on the code: Deactivate performs no ban check,
so a banned machine can still deactivate its live row. -/
theorem C8_counterexample :
    isBanned ⟨[], [⟨0, "K", "M", none, 0, false⟩], [⟨"M", some "abuse"⟩], 1, 0⟩ "M" =
      true ∧
    deactivate ⟨[], [⟨0, "K", "M", none, 0, false⟩], [⟨"M", some "abuse"⟩], 1, 0⟩
        ⟨"K", "M", none⟩ =
      .ok (⟨true, "Deactivated successfully"⟩,
        ⟨[], [⟨0, "K", "M", none, 0, true⟩], [⟨"M", some "abuse"⟩], 1, 0⟩) := by
  decide

/-- Claim C8 (amended): while a machine has a BannedMachine row, Activate and
Validate are rejected with the ban-specific outcome, and no core operation ever
removes a ban row; but Deactivate performs no ban check — it proceeds normally
for a banned machine that still holds a live row. -/
theorem C8_ban_scope (s : ServerState) (m : String) (hban : isBanned s m = true) :
    (∀ req : ActivateRequest, req.machine_id = m →
      activate s req = .error ⟨403, "This machine has been banned"⟩)
  ∧ (∀ t : Token, validate s ⟨t, m⟩ =
      { valid := false, plan := "", email := "",
        message := some "This machine has been banned" })
  ∧ (∀ ops : List Op, (runOps s ops).banned = s.banned)
  ∧ (∀ req : ActivateRequest, req.machine_id = m →
      liveForPair s req.license_key req.machine_id ≠ none →
      ∃ r s1, deactivate s req = .ok (r, s1)) := by
  refine ⟨?_, ?_, ?_, ?_⟩
  · intro req hm
    apply activate_of_banned
    rw [hm]
    exact hban
  · intro t
    simp [validate, hban]
  · intro ops
    exact runOps_banned s ops
  · intro req hm hlive
    cases hact : liveForPair s req.license_key req.machine_id with
    | none => exact absurd hact hlive
    | some act =>
      refine ⟨⟨true, "Deactivated successfully"⟩,
        { s with activations := setRevoked s.activations act.id }, ?_⟩
      unfold deactivate
      rw [hact]

/-- Closed instance of the amended C8: Validate for the banned machine M is
rejected with the ban message. -/
theorem C8_ban_scope_witness :
    validate ⟨[], [], [⟨"M", none⟩], 0, 0⟩ ⟨.invalid, "M"⟩ =
      { valid := false, plan := "", email := "",
        message := some "This machine has been banned" } :=
  (C8_ban_scope ⟨[], [], [⟨"M", none⟩], 0, 0⟩ "M" (by decide)).2.1 .invalid

/-- Claim C9: an Activation row's revoked flag is monotonic. A revoked row
survives, unchanged, any sequence of core operations; and an Activate for a
pair whose previous row was revoked (no live row) creates a brand-new row (key
s.nextId, revoked = false) while the revoked row persists with a different id
and its flag still true. Stated for states with well-formed primary keys. -/
theorem C9_revoked_monotonic (s : ServerState) (h : WFids s) :
    (∀ ops : List Op, ∀ a ∈ s.activations, a.revoked = true →
      a ∈ (runOps s ops).activations)
  ∧ (∀ req : ActivateRequest, ∀ resp : ActivateResponse, ∀ s1 : ServerState,
      ∀ r ∈ s.activations,
      activate s req = .ok (resp, s1) →
      liveForPair s req.license_key req.machine_id = none →
      r.revoked = true →
      (⟨s.nextId, req.license_key, req.machine_id, req.username, s.today, false⟩ :
          Activation) ∈ s1.activations ∧
      r ∈ s1.activations ∧ r.id ≠ s.nextId) := by
  constructor
  · exact fun ops => revoked_persists_runOps s ops h
  · intro req resp s1 r hr hok hnolive hrrev
    obtain ⟨lic, -, -, -, -, hcase⟩ := activate_ok_cases s req resp s1 hok
    rcases hcase with ⟨ex, hex, -⟩ | ⟨-, -, rfl⟩
    · rw [hnolive] at hex
      simp at hex
    · refine ⟨?_, List.mem_append_left _ hr, Nat.ne_of_lt (h.2 r hr)⟩
      exact List.mem_append_right _ (List.mem_singleton.mpr rfl)

/-- Closed instance of C9: after re-activating a pair whose only row is revoked,
the new row (id 1) and the old revoked row (id 0) coexist. -/
theorem C9_revoked_monotonic_witness :
    (⟨1, "K", "M", none, 5, false⟩ : Activation) ∈
        (⟨[⟨"K", "e", "pro", 9, 2⟩],
            [⟨0, "K", "M", none, 0, true⟩, ⟨1, "K", "M", none, 5, false⟩],
            [], 2, 5⟩ : ServerState).activations ∧
      (⟨0, "K", "M", none, 0, true⟩ : Activation) ∈
        (⟨[⟨"K", "e", "pro", 9, 2⟩],
            [⟨0, "K", "M", none, 0, true⟩, ⟨1, "K", "M", none, 5, false⟩],
            [], 2, 5⟩ : ServerState).activations ∧
      (⟨0, "K", "M", none, 0, true⟩ : Activation).id ≠ 1 :=
  (C9_revoked_monotonic
      ⟨[⟨"K", "e", "pro", 9, 2⟩], [⟨0, "K", "M", none, 0, true⟩], [], 1, 5⟩
      ⟨by unfold idsUnique; decide, by unfold idsBounded; decide⟩).2
    ⟨"K", "M", none⟩
    ⟨make_token ⟨"K", "e", "pro", 9, 2⟩ "M", "e", "pro", dateStr 9⟩
    ⟨[⟨"K", "e", "pro", 9, 2⟩],
      [⟨0, "K", "M", none, 0, true⟩, ⟨1, "K", "M", none, 5, false⟩], [], 2, 5⟩
    ⟨0, "K", "M", none, 0, true⟩ (by decide) (by decide) (by decide) (by decide)

end Altera
